import Mathlib

/-!
Verification of the attachment ingestion/upload pipeline and tool handlers of
the xero-mcp-server repository, as a shallow embedding in Lean.

Embedded source files:
* `src/helpers/file-to-base64.ts`        (`fileToBase64`, `MAX_FILE_SIZE`)
* `src/helpers/process-attachments.ts`   (`processAttachments`)
* `src/handlers/create-xero-account.handler.ts` (`createXeroAccount`)
* `src/handlers/get-xero-account.handler.ts`    (`getXeroAccount`)
* `src/tools/create/create-bank-transaction.tool.ts` (tool handler incl. the
  per-attachment upload loop; the same loop appears verbatim in
  `src/tools/update/update-invoice.tool.ts`)
* `src/tools/create/create-account.tool.ts`

External collaborators (Node stdlib `path.resolve`, the MIME table
`detectMimeType`, `Buffer` base64 encoding, the Xero REST client, the
deep-link builder) are modelled as parameters, since the spec treats them as
opaque collaborators.  Thrown JavaScript exceptions are modelled with
`Except String`; JavaScript string truthiness (empty string is falsy) is
modelled explicitly.
-/

/-! ### JavaScript value helpers -/

/-- JS template interpolation of a possibly-undefined string:
`undefined` renders as "undefined". -/
def jsStr : Option String → String
  | none => "undefined"
  | some s => s

/-- JS truthiness of an optional string: `undefined`, `null` and `""` are
falsy, every other string is truthy. -/
def truthy : Option String → Bool
  | none => false
  | some s => s ≠ ""

/-- JS `a || b` for an optional string `a` and string default `b`:
falls back to `b` when `a` is absent or empty. -/
def orElseStr (a : Option String) (b : String) : String :=
  if truthy a then jsStr a else b

/-! ### Substring machinery (models JS `String.prototype.includes`) -/

/-- Boolean list-prefix test. -/
def listPrefixOf : List Char → List Char → Bool
  | [], _ => true
  | _ :: _, [] => false
  | a :: as, b :: bs => a == b && listPrefixOf as bs

/-- `listContains n h`: the needle `n` occurs somewhere inside `h`. -/
def listContains (n : List Char) : List Char → Bool
  | [] => listPrefixOf n []
  | c :: t => listPrefixOf n (c :: t) || listContains n t

/-- `containsSub h n`: JS `h.includes(n)`. -/
def containsSub (h n : String) : Bool :=
  listContains n.toList h.toList

/-! ### Line joining (models JS `Array.prototype.join("\n")` on strings) -/

def joinLines : List String → String
  | [] => ""
  | [s] => s
  | s :: rest => s ++ "\n" ++ joinLines rest

/-- JS `array.filter(Boolean)` on an array of `string | null`:
drops `null` and empty strings. -/
def jsFilterBoolean (l : List (Option String)) : List String :=
  (l.filterMap id).filter (fun s => s ≠ "")

/-! ### File Loader: `src/helpers/file-to-base64.ts` -/

/-- Maximum file size, from `const MAX_FILE_SIZE = 10 * 1024 * 1024`. -/
def MAX_FILE_SIZE : Nat := 10 * 1024 * 1024

/-- `Math.round(stats.size / 1024 / 1024)` on exact rationals (the successive
float divisions by powers of two are exact for any realistic size). -/
def roundMB (size : Nat) : Nat := (2 * size + 1048576) / 2097152

/-- A Node.js error as seen by the catch block: an optional `code`
(`'ENOENT'`, `'EACCES'`, ...) and a `message`. -/
structure NodeErr where
  code : Option String
  msg : String
deriving DecidableEq

/-- Result of `fs.stat`. -/
structure FileStat where
  size : Nat
  isFile : Bool
deriving DecidableEq

/-- The filesystem as the two async operations `fileToBase64` performs. -/
structure FsModel where
  stat : String → Except NodeErr FileStat
  readFile : String → Except NodeErr (List Nat)

/-- External pure collaborators: Node `path.resolve`, the MIME table
`detectMimeType` (in `src/helpers/mime-type.ts`, excluded by the spec as an
opaque extension table), and `Buffer.prototype.toString('base64')`. -/
structure Collab where
  resolve : String → String
  detect : String → String
  b64encode : List Nat → String

/-- Node `path.basename` (posix): final path segment, ignoring trailing
slashes; a path of only slashes gives "/". -/
def basename (p : String) : String :=
  let rev := p.toList.reverse
  let stripped := rev.dropWhile (fun c => c == '/')
  if stripped.isEmpty then
    if rev.isEmpty then "" else "/"
  else
    String.mk ((stripped.takeWhile (fun c => c != '/')).reverse)

/-- Result shape of `fileToBase64` (interface `FileToBase64Result`). -/
structure FileToBase64Result where
  base64Content : String
  mimeType : String
  fileName : String
deriving DecidableEq

/-- The catch block of `fileToBase64`: translates the caught error into the
raised message.  Mirrors, in order: the `ENOENT` check, the `EACCES` check,
the re-throw of the custom 'too large' / 'not a file' errors, and the generic
wrap. -/
def translateFtbErr (filePath : String) (e : NodeErr) : String :=
  if e.code = some "ENOENT" then "File not found: " ++ filePath
  else if e.code = some "EACCES" then "Permission denied: " ++ filePath
  else if containsSub e.msg "too large" || containsSub e.msg "not a file" then e.msg
  else "Unable to read file: " ++ filePath ++ " - " ++ e.msg

/-- `fileToBase64(filePath)`.  The second component records whether
`fs.readFile` was invoked.  The body mirrors the source: resolve, stat,
`isFile` check, size check, read, then derive fileName / mimeType; every
thrown error passes through the catch block (`translateFtbErr`). -/
def fileToBase64 (c : Collab) (fs : FsModel) (filePath : String) :
    Except String FileToBase64Result × Bool :=
  let resolvedPath := c.resolve filePath
  match fs.stat resolvedPath with
  | .error e => (.error (translateFtbErr filePath e), false)
  | .ok stats =>
    if !stats.isFile then
      (.error (translateFtbErr filePath ⟨none, "Path is not a file: " ++ filePath⟩), false)
    else if stats.size > MAX_FILE_SIZE then
      (.error (translateFtbErr filePath
        ⟨none, "File too large: " ++ toString (roundMB stats.size) ++ "MB (max: 10MB)"⟩), false)
    else
      match fs.readFile resolvedPath with
      | .error e => (.error (translateFtbErr filePath e), true)
      | .ok buffer =>
        let fileName := basename resolvedPath
        (.ok ⟨c.b64encode buffer, c.detect fileName, fileName⟩, true)

/-! ### Attachment Normalizer: `src/helpers/process-attachments.ts` -/

/-- `AttachmentInput` from `src/schemas/attachment.schema.ts`: all four
fields optional at the wire level. -/
structure AttachmentInput where
  fileName : Option String
  mimeType : Option String
  filePath : Option String
  base64Content : Option String
deriving DecidableEq

/-- `ProcessedAttachment` interface of `process-attachments.ts`. -/
structure ProcessedAttachment where
  fileName : String
  mimeType : String
  base64Content : String
deriving DecidableEq

/-- The body of one iteration of the loop in `processAttachments`, before the
catch-and-rewrap.  `loader` abstracts the call `fileToBase64(attachment.filePath)`
and `detect` the call `detectMimeType(fileName)`.  The branch guards are JS
truthiness tests (`if (attachment.filePath)` etc.). -/
def processOne (loader : String → Except String FileToBase64Result)
    (detect : String → String) (a : AttachmentInput) :
    Except String ProcessedAttachment :=
  if truthy a.filePath then
    match loader (jsStr a.filePath) with
    | .error m => .error m
    | .ok fileData =>
      .ok ⟨orElseStr a.fileName fileData.fileName,
           orElseStr a.mimeType fileData.mimeType,
           fileData.base64Content⟩
  else if truthy a.base64Content then
    if !truthy a.fileName then
      .error "fileName is required when using base64Content"
    else
      .ok ⟨jsStr a.fileName,
           orElseStr a.mimeType (detect (jsStr a.fileName)),
           jsStr a.base64Content⟩
  else
    .error "Either filePath or base64Content must be provided"

/-- The loop of `processAttachments`: each item is processed in order; the
first failure is re-thrown with the context prefix and aborts the batch. -/
def processAttachmentsGo (loader : String → Except String FileToBase64Result)
    (detect : String → String) :
    List AttachmentInput → Except String (List ProcessedAttachment)
  | [] => .ok []
  | a :: rest =>
    match processOne loader detect a with
    | .error m => .error ("Failed to process attachment: " ++ m)
    | .ok p => (processAttachmentsGo loader detect rest).map (fun ps => p :: ps)

/-- `processAttachments(attachments)`: `undefined` or `[]` yield `[]`. -/
def processAttachments (loader : String → Except String FileToBase64Result)
    (detect : String → String) :
    Option (List AttachmentInput) → Except String (List ProcessedAttachment)
  | none => .ok []
  | some l => if l.length = 0 then .ok [] else processAttachmentsGo loader detect l

/-! ### Upload Executor: the per-attachment loop of
`create-bank-transaction.tool.ts` (lines 60-79) and
`update-invoice.tool.ts` (lines 109-130) -/

inductive UploadStatus where
  | success
  | failed
deriving DecidableEq

/-- One entry of `attachmentResults`. -/
structure AttachmentUploadResult where
  fileName : String
  status : UploadStatus
  error : Option String
deriving DecidableEq

/-- The inner try/catch of one loop iteration: a successful upload records
`{fileName, status:'success'}`, a thrown error records
`{fileName, status:'failed', error: message}`. -/
def mkUploadResult (a : ProcessedAttachment) : Except String Unit → AttachmentUploadResult
  | .ok _ => ⟨a.fileName, .success, none⟩
  | .error m => ⟨a.fileName, .failed, some m⟩

/-- The upload loop: iterates the processed attachments in order, invoking
the remote upload call (abstracted as `f`, indexed by position) once per item
and collecting one result per item.  The second component is the trace of
upload calls actually made (the fileName of each call, in order). -/
def uploadLoop (f : Nat → ProcessedAttachment → Except String Unit) :
    List ProcessedAttachment → Nat → List AttachmentUploadResult × List String
  | [], _ => ([], [])
  | a :: rest, i =>
    let r := mkUploadResult a (f i a)
    let (rs, tr) := uploadLoop f rest (i + 1)
    (r :: rs, a.fileName :: tr)

/-! ### Entity Handlers: `get-xero-account.handler.ts`,
`create-xero-account.handler.ts` -/

/-- The uniform envelope `XeroClientResponse<T>` from
`src/types/tool-response.ts` (as declared and used by the handlers). -/
structure XeroClientResponse (T : Type) where
  result : Option T
  isError : Bool
  error : Option String

/-- `getXeroAccount(accountId)`.  `call` abstracts the inner `getAccount`
(authenticate + remote get, which may throw or yield `undefined`); `fmt`
abstracts the external `formatError` helper.  Mirrors: try, the
`if (!account) throw new Error("Account not found.")` check, the success
envelope, and the catch envelope. -/
def getXeroAccount {T : Type} (call : Except String (Option T))
    (fmt : String → String) : XeroClientResponse T :=
  match call with
  | .error e => ⟨none, true, some (fmt e)⟩
  | .ok none => ⟨none, true, some (fmt "Account not found.")⟩
  | .ok (some a) => ⟨some a, false, none⟩

/-- `createXeroAccount(...)`: same shape with the
`"Account creation/update failed."` message. -/
def createXeroAccount {T : Type} (call : Except String (Option T))
    (fmt : String → String) : XeroClientResponse T :=
  match call with
  | .error e => ⟨none, true, some (fmt e)⟩
  | .ok none => ⟨none, true, some (fmt "Account creation/update failed.")⟩
  | .ok (some a) => ⟨some a, false, none⟩

/-! ### Entity field records (the fields the tool handlers read) -/

structure Account where
  accountID : Option String
  name : Option String
  code : Option String
  accType : Option String
deriving DecidableEq

structure BankAccount where
  accountID : Option String
deriving DecidableEq

structure Contact where
  name : Option String
deriving DecidableEq

structure BankTransaction where
  bankTransactionID : Option String
  bankAccount : Option BankAccount
  date : Option String
  contact : Option Contact
  total : Option String
  status : Option String
deriving DecidableEq

/-! ### Tool response shape -/

/-- One element of the `content` array: `{ type: "text", text }`. -/
structure ContentItem where
  itemType : String
  text : String
deriving DecidableEq

/-- The uniform tool return value `{ content: [...] }`. -/
structure ToolResponse where
  content : List ContentItem
deriving DecidableEq

/-- Every return site in the tools builds a single text block. -/
def mkText (t : String) : ToolResponse := ⟨[⟨"text", t⟩]⟩

/-- `attachmentResults.map(r => fileName + " (" + status + ")").join(", ")`. -/
def statusStr : UploadStatus → String
  | .success => "success"
  | .failed => "failed"

def renderUploadResults (rs : List AttachmentUploadResult) : String :=
  joinCommas (rs.map (fun r => r.fileName ++ " (" ++ statusStr r.status ++ ")"))
where
  joinCommas : List String → String
    | [] => ""
    | [s] => s
    | s :: rest => s ++ ", " ++ joinCommas rest

/-! ### Tool Façade handler: `create-bank-transaction.tool.ts` -/

/-- Upshot of a run of the bank-transaction tool handler that did not throw:
the returned response, the joined lines making up its text, and the
`attachmentResults` array it accumulated. -/
structure BankToolOk where
  response : ToolResponse
  lines : List String
  attachmentResults : List AttachmentUploadResult

/-- The deep-link expression of the tool:
`bankTransaction.bankAccount.accountID && bankTransaction.bankTransactionID
? bankTransactionDeepLink(...) : null`, where the builder (a collaborator
not under `src/`) may in general throw. -/
def bankDeepLink (deepLinkFn : String → String → Except String String)
    (ba : BankAccount) (bt : BankTransaction) : Except String (Option String) :=
  if truthy ba.accountID && truthy bt.bankTransactionID then
    (deepLinkFn (jsStr ba.accountID) (jsStr bt.bankTransactionID)).map some
  else .ok none

/-- `attachments && attachments.length > 0`. -/
def attachmentsNonEmpty : Option (List AttachmentInput) → Bool
  | none => false
  | some l => decide (l.length > 0)

/-- The handler body of `CreateBankTransactionTool` after the entity handler
call, which the source awaits first (`createXeroBankTransaction` is envelope
code that catches its own errors; its envelope is taken as input).  Mirrors,
in order: the `isError` early return; reading `result.result` (a JS
TypeError if the envelope is violated with a null result); the deep-link
expression (reading `.bankAccount.accountID` throws a TypeError when
`bankAccount` is absent); the guarded attachment block with its outer
try/catch around `processAttachments` and the per-item upload loop; and the
final text composition with `.filter(Boolean).join("\n")`.
The second component of the result is the trace of upload calls made. -/
def runCreateBankTransactionTool
    (callResult : XeroClientResponse BankTransaction)
    (deepLinkFn : String → String → Except String String)
    (loader : String → Except String FileToBase64Result)
    (detect : String → String)
    (uploadFn : Nat → ProcessedAttachment → Except String Unit)
    (attachments : Option (List AttachmentInput)) :
    Except String BankToolOk × List String :=
  if callResult.isError then
    (.ok ⟨mkText ("Error creating bank transaction: " ++ jsStr callResult.error),
          ["Error creating bank transaction: " ++ jsStr callResult.error], []⟩, [])
  else
    match callResult.result with
    | none => (.error "TypeError: Cannot read properties of null (reading bankAccount)", [])
    | some bt =>
      match bt.bankAccount with
      | none => (.error "TypeError: Cannot read properties of undefined (reading accountID)", [])
      | some ba =>
        match bankDeepLink deepLinkFn ba bt with
        | .error e => (.error e, [])
        | .ok deepLink =>
          let (attachmentResults, uploadTrace) :=
            if attachmentsNonEmpty attachments && truthy bt.bankTransactionID then
              match processAttachments loader detect attachments with
              | .ok processed => uploadLoop uploadFn processed 0
              | .error m =>
                ([⟨"unknown", .failed, some ("Processing failed: " ++ m)⟩], [])
            else ([], [])
          let rawLines : List (Option String) := [
            some "Bank transaction successfully:",
            some ("ID: " ++ jsStr bt.bankTransactionID),
            some ("Date: " ++ jsStr bt.date),
            some ("Contact: " ++ jsStr (bt.contact.bind Contact.name)),
            some ("Total: " ++ jsStr bt.total),
            some ("Status: " ++ jsStr bt.status),
            (if attachmentResults.length > 0 then
              some ("Attachments: " ++ renderUploadResults attachmentResults)
            else none),
            (match deepLink with
             | some d => if d ≠ "" then some ("Link to view: " ++ d) else none
             | none => none)]
          let lines := jsFilterBoolean rawLines
          (.ok ⟨mkText (joinLines lines), lines, attachmentResults⟩, uploadTrace)

/-! ### Tool Façade handler: `create-account.tool.ts` -/

/-- The try-block of the `CreateAccountTool` handler.  `call` abstracts the
awaited `createXeroAccount(...)` (an arbitrary behaviour of the remote
boundary, throwing included). -/
def createAccountToolBody (call : Except String (XeroClientResponse Account))
    (accountId : Option String) : Except String ToolResponse :=
  match call with
  | .error e => .error e
  | .ok response =>
    if response.isError then
      .ok (mkText ("Error " ++ (if truthy accountId then "updating" else "creating")
            ++ " account: " ++ jsStr response.error))
    else
      match response.result with
      | none => .error "TypeError: Cannot read properties of null (reading accountID)"
      | some account =>
        .ok (mkText (joinLines (jsFilterBoolean [
          some ("Account " ++ (if truthy accountId then "updated" else "created")
            ++ ": " ++ jsStr account.name ++ " (ID: " ++ jsStr account.accountID ++ ")"),
          some ("Code: " ++ jsStr account.code),
          some ("Type: " ++ jsStr account.accType),
          none])))

/-- The whole `CreateAccountTool` handler: its body is wrapped in
try/catch, so every error becomes the error-text response and the handler
itself is a total function into the uniform shape. -/
def runCreateAccountTool (call : Except String (XeroClientResponse Account))
    (accountId : Option String) : ToolResponse :=
  match createAccountToolBody call accountId with
  | .ok r => r
  | .error e =>
    mkText ("Error " ++ (if truthy accountId then "updating" else "creating")
      ++ " account: " ++ e)

/-! ### Fixtures for witnesses and counterexamples -/

/-- A loader that always fails (the by-content branches never consult it). -/
def loaderFail : String → Except String FileToBase64Result :=
  fun _ => .error "no filesystem"

/-- A constant MIME detector. -/
def detectConst : String → String := fun _ => "application/octet-stream"

def collabId : Collab :=
  ⟨fun p => p, detectConst, fun _ => "QUJD"⟩

/-- A filesystem with a single 11 MB regular file at `/data/big.pdf`. -/
def fsBig : FsModel :=
  ⟨fun p => if p = "/data/big.pdf" then .ok ⟨11534336, true⟩
            else .error ⟨some "ENOENT", "no such file"⟩,
   fun _ => .ok [37, 80, 68, 70]⟩

/-- A filesystem with a small regular file at `/docs/invoice.pdf`. -/
def fsSmall : FsModel :=
  ⟨fun p => if p = "/docs/invoice.pdf" then .ok ⟨4, true⟩
            else .error ⟨some "ENOENT", "no such file"⟩,
   fun p => if p = "/docs/invoice.pdf" then .ok [37, 80, 68, 70]
            else .error ⟨some "ENOENT", "no such file"⟩⟩

/-- A filesystem where everything is missing. -/
def fsGone : FsModel :=
  ⟨fun _ => .error ⟨some "ENOENT", "no such file or directory"⟩,
   fun _ => .error ⟨some "ENOENT", "no such file or directory"⟩⟩

def btFix : BankTransaction :=
  ⟨some "BT1", some ⟨some "ACC1"⟩, some "2024-05-01", some ⟨some "Bob"⟩,
   some "10.00", some "AUTHORISED"⟩

def envOkFix : XeroClientResponse BankTransaction := ⟨some btFix, false, none⟩

def envErrFix : XeroClientResponse BankTransaction := ⟨none, true, some "remote boom"⟩

/-- A deep-link builder behaviour that throws. -/
def throwingDeepLink : String → String → Except String String :=
  fun _ _ => .error "deeplink boom"

/-- A deep-link builder behaviour that returns a URL. -/
def okDeepLink : String → String → Except String String :=
  fun a b => .ok ("https://go.xero.com/" ++ a ++ "/" ++ b)

/-- An upload behaviour that always succeeds. -/
def uploadOk : Nat → ProcessedAttachment → Except String Unit :=
  fun _ _ => .ok ()

/-- An upload behaviour where exactly the second call (index 1) throws. -/
def uploadFailSecond : Nat → ProcessedAttachment → Except String Unit :=
  fun i _ => if i = 1 then .error "network down" else .ok ()

def attOk1 : AttachmentInput := ⟨some "a.pdf", none, none, some "QUJD"⟩

def attOk2 : AttachmentInput := ⟨some "b.pdf", none, none, some "REVG"⟩

def attOk3 : AttachmentInput := ⟨some "c.pdf", none, none, some "R0hJ"⟩

def attNoSource : AttachmentInput := ⟨none, none, none, none⟩

def attNoName : AttachmentInput := ⟨none, none, none, some "QUJD"⟩

def attEmptyPath : AttachmentInput := ⟨some "a.pdf", none, some "", some "QUJD"⟩

def attBothEmpty : AttachmentInput := ⟨some "a.pdf", none, some "", some ""⟩

def attEmptyName : AttachmentInput := ⟨some "", none, some "", some "QUJD"⟩

/-! ## Theorems -/

theorem toList_append (a b : String) : (a ++ b).toList = a.toList ++ b.toList := rfl

theorem lpo_append_self (l t : List Char) : listPrefixOf l (l ++ t) = true := by
  induction l with
  | nil => rfl
  | cons a as ih => simp [listPrefixOf, ih]

theorem lc_of_lpo {n h : List Char} (hp : listPrefixOf n h = true) :
    listContains n h = true := by
  cases h with
  | nil => simpa [listContains] using hp
  | cons c t => simp [listContains, hp]

theorem lc_cons_of_tail {n t : List Char} (c : Char)
    (h : listContains n t = true) : listContains n (c :: t) = true := by
  simp [listContains, h]

theorem lc_append_left {n h : List Char} (pre : List Char)
    (hc : listContains n h = true) : listContains n (pre ++ h) = true := by
  induction pre with
  | nil => simpa using hc
  | cons c cs ih => exact lc_cons_of_tail c ih

theorem lc_self_append (l t : List Char) : listContains l (l ++ t) = true :=
  lc_of_lpo (lpo_append_self l t)

/-- The needle occurs in `pre ++ needle ++ post`. -/
theorem containsSub_sandwich (pre mid post : String) :
    containsSub (pre ++ (mid ++ post)) mid = true := by
  unfold containsSub
  rw [toList_append, toList_append]
  exact lc_append_left _ (lc_self_append _ _)

theorem joinLines_contains {l : List String} {s : String} (hm : s ∈ l) :
    containsSub (joinLines l) s = true := by
  induction l with
  | nil => cases hm
  | cons a rest ih =>
    cases rest with
    | nil =>
      rcases List.mem_singleton.mp hm with rfl
      unfold containsSub joinLines
      have := lc_self_append s.toList []
      simpa using this
    | cons b bs =>
      rcases List.mem_cons.mp hm with rfl | hmem
      · show containsSub (s ++ "\n" ++ joinLines (b :: bs)) s = true
        unfold containsSub
        rw [show s ++ "\n" ++ joinLines (b :: bs) = s ++ ("\n" ++ joinLines (b :: bs)) by
          simp [String.append_assoc]]
        rw [toList_append]
        exact lc_of_lpo (lpo_append_self _ _)
      · show containsSub (a ++ "\n" ++ joinLines (b :: bs)) s = true
        unfold containsSub
        rw [show a ++ "\n" ++ joinLines (b :: bs) = (a ++ "\n") ++ joinLines (b :: bs) by
          simp [String.append_assoc]]
        rw [toList_append]
        exact lc_append_left _ (ih hmem)

theorem append_ne_empty {p : String} (x : String) (hp : p.toList ≠ []) :
    p ++ x ≠ "" := by
  intro h
  apply hp
  have : (p ++ x).toList = ("" : String).toList := by rw [h]
  rw [toList_append] at this
  have hx := List.append_eq_nil.mp this
  exact hx.1

/-- "too large" occurs in "File too large: " ++ anything. -/
theorem tooLarge_contained (rest : List Char) :
    listContains "too large".toList ("File too large: ".toList ++ rest) = true := rfl

/-- If a prefix of the batch processes fine and then an item fails with
message `m`, the loop raises `"Failed to process attachment: " ++ m`. -/
theorem processAttachmentsGo_append_error
    {loader : String → Except String FileToBase64Result}
    {detect : String → String} {pre : List AttachmentInput}
    {ps : List ProcessedAttachment} {a : AttachmentInput} {m : String}
    (post : List AttachmentInput)
    (hpre : processAttachmentsGo loader detect pre = .ok ps)
    (ha : processOne loader detect a = .error m) :
    processAttachmentsGo loader detect (pre ++ a :: post) =
      .error ("Failed to process attachment: " ++ m) := by
  induction pre generalizing ps with
  | nil =>
    simp only [List.nil_append, processAttachmentsGo, ha]
  | cons b bs ih =>
    simp only [processAttachmentsGo, List.cons_append] at hpre ⊢
    cases hb : processOne loader detect b with
    | error mb => rw [hb] at hpre; exact absurd hpre (by simp)
    | ok pb =>
      rw [hb] at hpre
      cases hbs : processAttachmentsGo loader detect bs with
      | error mbs => rw [hbs] at hpre; exact absurd hpre (by simp [Except.map])
      | ok pbs => simp only [List.append_eq]; rw [ih hbs]; rfl

theorem uploadLoop_length (f : Nat → ProcessedAttachment → Except String Unit)
    (l : List ProcessedAttachment) (k : Nat) :
    (uploadLoop f l k).1.length = l.length := by
  induction l generalizing k with
  | nil => rfl
  | cons a rest ih => simp [uploadLoop, ih]

theorem uploadLoop_getElem (f : Nat → ProcessedAttachment → Except String Unit)
    (l : List ProcessedAttachment) (k i : Nat) (a : ProcessedAttachment)
    (h : l[i]? = some a) :
    (uploadLoop f l k).1[i]? = some (mkUploadResult a (f (k + i) a)) := by
  induction l generalizing k i with
  | nil => simp at h
  | cons b rest ih =>
    cases i with
    | zero =>
      simp at h
      subst h
      simp [uploadLoop]
    | succ j =>
      simp only [List.getElem?_cons_succ] at h
      have := ih (k + 1) j h
      simpa [uploadLoop, Nat.add_assoc, Nat.add_comm 1 j] using this

theorem uploadLoop_trace (f : Nat → ProcessedAttachment → Except String Unit)
    (l : List ProcessedAttachment) (k : Nat) :
    (uploadLoop f l k).2 = l.map (fun a => a.fileName) := by
  induction l generalizing k with
  | nil => rfl
  | cons a rest ih => simp [uploadLoop, ih]

/-! ### Claim C5: envelope invariant -/

/-- C5: every envelope returned by the entity handlers `getXeroAccount` and
`createXeroAccount` satisfies: `isError` is true iff `result` is null, and
`isError` is true iff `error` is non-null — exactly one of `result` and
`error` is populated, for every behaviour of the inner remote call and of
`formatError`. -/
theorem c5_envelope_invariant :
    ∀ (T : Type) (call : Except String (Option T)) (fmt : String → String),
      (((getXeroAccount call fmt).isError = true ↔ (getXeroAccount call fmt).result = none)
        ∧ ((getXeroAccount call fmt).isError = true ↔ (getXeroAccount call fmt).error ≠ none))
      ∧ (((createXeroAccount call fmt).isError = true ↔ (createXeroAccount call fmt).result = none)
        ∧ ((createXeroAccount call fmt).isError = true ↔ (createXeroAccount call fmt).error ≠ none)) := by
  intro T call fmt
  constructor
  · rcases call with e | o
    · simp [getXeroAccount]
    · rcases o with _ | a <;> simp [getXeroAccount]
  · rcases call with e | o
    · simp [createXeroAccount]
    · rcases o with _ | a <;> simp [createXeroAccount]

/-! ### Claim C3: oversized files -/

/-- C3: whenever `fs.stat` reports a regular file whose size exceeds
10 MiB (`MAX_FILE_SIZE`), `fileToBase64` fails with the 'File too large'
error, and the read flag is `false`: the size check happens on the stat
result before any content is read, so no partial content can be returned
and the oversized file is never read into memory. -/
theorem c3_too_large (c : Collab) (fs : FsModel) (p : String) (st : FileStat)
    (h1 : fs.stat (c.resolve p) = .ok st) (h2 : st.isFile = true)
    (h3 : st.size > MAX_FILE_SIZE) :
    fileToBase64 c fs p =
      (.error ("File too large: " ++ toString (roundMB st.size) ++ "MB (max: 10MB)"), false) := by
  have hc : containsSub ("File too large: " ++ toString (roundMB st.size) ++ "MB (max: 10MB)")
      "too large" = true := by
    unfold containsSub
    rw [toList_append, toList_append, List.append_assoc]
    exact tooLarge_contained _
  unfold fileToBase64
  simp only [h1, h2, Bool.not_true, Bool.false_eq_true, if_false, if_pos h3]
  unfold translateFtbErr
  simp [hc]

/-- Witness for C3 at a concrete 11 MB file. -/
theorem c3_too_large_witness :
    fileToBase64 collabId fsBig "/data/big.pdf" =
      (.error "File too large: 11MB (max: 10MB)", false) := by
  have h := c3_too_large collabId fsBig "/data/big.pdf" ⟨11534336, true⟩ rfl rfl (by decide)
  rw [h]
  rfl

@[simp] theorem truthy_none : truthy none = false := rfl

@[simp] theorem truthy_some_empty : truthy (some "") = false := by decide

@[simp] theorem jsStr_some (s : String) : jsStr (some s) = s := rfl

@[simp] theorem jsStr_none : jsStr none = "undefined" := rfl

theorem truthy_some_of_ne {s : String} (h : s ≠ "") : truthy (some s) = true := by
  simp [truthy, h]

/-! ### Claim C6: missing source / missing filename -/

/-- C6: in any batch whose earlier items process fine, an attachment input
with both `filePath` and `base64Content` absent makes `processAttachments`
fail with the missing-source error, and an input with (non-empty)
`base64Content` set and `fileName` absent makes it fail with the
missing-filename error.  (Per §4.3 the raised message carries the
`"Failed to process attachment: "` context prefix around the quoted item
message.  A by-content input has no `filePath` — §3's exclusive-source
invariant — which the second part states explicitly.) -/
theorem c6_missing_source_or_filename
    (loader : String → Except String FileToBase64Result) (detect : String → String)
    (pre post : List AttachmentInput) (ps : List ProcessedAttachment)
    (a : AttachmentInput)
    (hpre : processAttachmentsGo loader detect pre = .ok ps) :
    (a.filePath = none → a.base64Content = none →
      processAttachments loader detect (some (pre ++ a :: post)) =
        .error "Failed to process attachment: Either filePath or base64Content must be provided")
    ∧ (a.filePath = none → truthy a.base64Content = true → a.fileName = none →
      processAttachments loader detect (some (pre ++ a :: post)) =
        .error "Failed to process attachment: fileName is required when using base64Content") := by
  have hne : ¬((pre ++ a :: post).length = 0) := by simp
  constructor
  · intro hfp hb
    have hone : processOne loader detect a =
        .error "Either filePath or base64Content must be provided" := by
      simp [processOne, hfp, hb, truthy]
    have := processAttachmentsGo_append_error post hpre hone
    simp only [processAttachments, if_neg hne]
    simpa using this
  · intro hfp hb hfn
    have hone : processOne loader detect a =
        .error "fileName is required when using base64Content" := by
      simp [processOne, hfp, hb, hfn]
    have := processAttachmentsGo_append_error post hpre hone
    simp only [processAttachments, if_neg hne]
    simpa using this

/-- Witness for C6: concrete singleton batches. -/
theorem c6_missing_source_or_filename_witness :
    processAttachments loaderFail detectConst (some [attNoSource]) =
      .error "Failed to process attachment: Either filePath or base64Content must be provided"
    ∧ processAttachments loaderFail detectConst (some [attNoName]) =
      .error "Failed to process attachment: fileName is required when using base64Content" := by
  constructor
  · exact (c6_missing_source_or_filename loaderFail detectConst [] [] [] attNoSource rfl).1
      rfl rfl
  · exact (c6_missing_source_or_filename loaderFail detectConst [] [] [] attNoName rfl).2
      rfl (by decide) rfl

/-! ### Claim C10: empty-string fields are treated as absent -/

/-- C10: `processAttachments` tests truthiness, not presence.  An input with
`filePath = ""` and non-empty `base64Content` goes through the by-content
branch (the result does not consult the loader, which is universally
quantified); an input with `filePath = ""` and `base64Content = ""` fails
with the missing-source error; an input with non-empty `base64Content` and
`fileName = ""` fails with the missing-filename error — in each case even
though the fields are present. -/
theorem c10_empty_string_truthiness
    (loader : String → Except String FileToBase64Result) (detect : String → String)
    (a : AttachmentInput) :
    (∀ s f, a.filePath = some "" → a.base64Content = some s → s ≠ "" →
      a.fileName = some f → f ≠ "" →
      processAttachments loader detect (some [a]) =
        .ok [⟨f, orElseStr a.mimeType (detect f), s⟩])
    ∧ (a.filePath = some "" → a.base64Content = some "" →
      processAttachments loader detect (some [a]) =
        .error "Failed to process attachment: Either filePath or base64Content must be provided")
    ∧ (∀ s, truthy a.filePath = false → a.base64Content = some s → s ≠ "" →
      a.fileName = some "" →
      processAttachments loader detect (some [a]) =
        .error "Failed to process attachment: fileName is required when using base64Content") := by
  refine ⟨?_, ?_, ?_⟩
  · intro s f hfp hb hs hfn hf
    simp [processAttachments, processAttachmentsGo, processOne, hfp, hb, hfn,
      truthy_some_of_ne hs, truthy_some_of_ne hf, Except.map]
  · intro hfp hb
    simp [processAttachments, processAttachmentsGo, processOne, hfp, hb, truthy]
  · intro s hfp hb hs hfn
    simp [processAttachments, processAttachmentsGo, processOne, hfp, hb, hfn,
      truthy_some_of_ne hs]

/-- Witness for C10: the three scenarios at concrete inputs. -/
theorem c10_empty_string_truthiness_witness :
    processAttachments loaderFail detectConst (some [attEmptyPath]) =
      .ok [⟨"a.pdf", "application/octet-stream", "QUJD"⟩]
    ∧ processAttachments loaderFail detectConst (some [attBothEmpty]) =
      .error "Failed to process attachment: Either filePath or base64Content must be provided"
    ∧ processAttachments loaderFail detectConst (some [attEmptyName]) =
      .error "Failed to process attachment: fileName is required when using base64Content" := by
  refine ⟨?_, ?_, ?_⟩
  · have := (c10_empty_string_truthiness loaderFail detectConst attEmptyPath).1
      "QUJD" "a.pdf" rfl rfl (by decide) rfl (by decide)
    simpa [orElseStr, truthy, detectConst] using this
  · exact (c10_empty_string_truthiness loaderFail detectConst attBothEmpty).2.1 rfl rfl
  · exact (c10_empty_string_truthiness loaderFail detectConst attEmptyName).2.2
      "QUJD" (by decide) rfl (by decide) rfl

theorem mem_jsFilterBoolean_of {raw : List (Option String)} {s : String}
    (hmem : some s ∈ raw) (hne : s ≠ "") : s ∈ jsFilterBoolean raw := by
  unfold jsFilterBoolean
  refine List.mem_filter.mpr ⟨?_, by simpa using hne⟩
  exact List.mem_filterMap.mpr ⟨some s, hmem, rfl⟩

theorem idLine_ne_empty (x : String) : "ID: " ++ x ≠ "" :=
  append_ne_empty x (by decide)

/-! ### Claim C2: fail-fast normalization and the synthetic failure entry -/

/-- C2: if any item of the batch fails to process (the items before it
having processed fine), `processAttachments` raises a single error wrapping
the item's failure message with the `"Failed to process attachment: "`
prefix and yields no attachment list; and at the tool call site
(`CreateBankTransactionTool`), that error is caught and recorded as exactly
one synthetic result entry with fileName 'unknown' and status 'failed',
while the tool still returns the primary entity's success report (its text
carries the `ID:` success field) instead of propagating the exception. -/
theorem c2_failfast_and_synthetic_entry :
    (∀ (loader : String → Except String FileToBase64Result) (detect : String → String)
      (pre post : List AttachmentInput) (ps : List ProcessedAttachment)
      (a : AttachmentInput) (m : String),
      processAttachmentsGo loader detect pre = .ok ps →
      processOne loader detect a = .error m →
      processAttachments loader detect (some (pre ++ a :: post)) =
        .error ("Failed to process attachment: " ++ m))
    ∧ (∀ (callResult : XeroClientResponse BankTransaction)
      (deepLinkFn : String → String → Except String String)
      (loader : String → Except String FileToBase64Result) (detect : String → String)
      (uploadFn : Nat → ProcessedAttachment → Except String Unit)
      (attachments : Option (List AttachmentInput))
      (bt : BankTransaction) (ba : BankAccount) (dl : Option String) (M : String),
      callResult.isError = false → callResult.result = some bt →
      bt.bankAccount = some ba → bankDeepLink deepLinkFn ba bt = .ok dl →
      attachmentsNonEmpty attachments = true → truthy bt.bankTransactionID = true →
      processAttachments loader detect attachments = .error M →
      ∃ okv t,
        runCreateBankTransactionTool callResult deepLinkFn loader detect uploadFn attachments
          = (.ok okv, [])
        ∧ okv.attachmentResults = [⟨"unknown", .failed, some ("Processing failed: " ++ M)⟩]
        ∧ okv.response = mkText t
        ∧ containsSub t ("ID: " ++ jsStr bt.bankTransactionID) = true) := by
  constructor
  · intro loader detect pre post ps a m hpre hone
    have hne : ¬((pre ++ a :: post).length = 0) := by simp
    have := processAttachmentsGo_append_error post hpre hone
    simp only [processAttachments, if_neg hne]
    exact this
  · intro callResult deepLinkFn loader detect uploadFn attachments bt ba dl M
      hErr hRes hBA hDL hNE hID hPA
    unfold runCreateBankTransactionTool
    simp only [hErr, Bool.false_eq_true, if_false, hRes, hBA, hDL, hNE, hID,
      Bool.and_self, if_true, hPA]
    refine ⟨_, _, rfl, rfl, rfl, ?_⟩
    apply joinLines_contains
    apply mem_jsFilterBoolean_of _ (idLine_ne_empty _)
    simp

/-- Witness for C2: a concrete successful bank transaction whose single
attachment has no source, yielding the one synthetic 'unknown' failure. -/
theorem c2_failfast_and_synthetic_entry_witness :
    ∃ okv t,
      runCreateBankTransactionTool envOkFix okDeepLink loaderFail detectConst uploadOk
          (some [attNoSource]) = (.ok okv, [])
      ∧ okv.attachmentResults = [⟨"unknown", .failed,
          some ("Processing failed: " ++
            "Failed to process attachment: Either filePath or base64Content must be provided")⟩]
      ∧ okv.response = mkText t
      ∧ containsSub t ("ID: " ++ jsStr btFix.bankTransactionID) = true :=
  c2_failfast_and_synthetic_entry.2 envOkFix okDeepLink loaderFail detectConst uploadOk
    (some [attNoSource]) btFix ⟨some "ACC1"⟩
    (some ("https://go.xero.com/" ++ "ACC1" ++ "/" ++ "BT1"))
    "Failed to process attachment: Either filePath or base64Content must be provided"
    rfl rfl rfl rfl rfl (by decide) rfl

/-- Inversion: a successful `fileToBase64` derives `fileName` as the
basename of the resolved path and `mimeType` via the detector on that name. -/
theorem fileToBase64_ok_inv {c : Collab} {fs : FsModel} {p : String}
    {fd : FileToBase64Result} (h : (fileToBase64 c fs p).1 = .ok fd) :
    fd.fileName = basename (c.resolve p)
    ∧ fd.mimeType = c.detect (basename (c.resolve p)) := by
  simp only [fileToBase64] at h
  split at h
  · simp at h
  · split at h
    · simp at h
    · split at h
      · simp at h
      · split at h
        · simp at h
        · simp only [Except.ok.injEq] at h
          subst h
          exact ⟨rfl, rfl⟩

/-! ### Claim C7: by-path overrides take precedence over derived values -/

/-- C7: for a by-path attachment input whose load succeeds, the processed
attachment's `mimeType` is the explicit override when (truthily) provided
and otherwise the detector's inference on the loaded file's name — the
basename of the resolved path, not the `fileName` override — and likewise
`fileName` is the override when provided, else the derived basename. -/
theorem c7_by_path_overrides (c : Collab) (fs : FsModel) (a : AttachmentInput)
    (p : String) (fd : FileToBase64Result)
    (hfp : a.filePath = some p) (hp : p ≠ "")
    (hload : (fileToBase64 c fs p).1 = .ok fd) :
    processOne (fun q => (fileToBase64 c fs q).1) c.detect a =
      .ok ⟨(if truthy a.fileName then jsStr a.fileName else basename (c.resolve p)),
           (if truthy a.mimeType then jsStr a.mimeType else c.detect (basename (c.resolve p))),
           fd.base64Content⟩ := by
  obtain ⟨hn, hm⟩ := fileToBase64_ok_inv hload
  simp only [processOne, hfp, truthy_some_of_ne hp, if_true, jsStr_some, hload,
    orElseStr, hn, hm]

/-- Witness for C7: a concrete by-path input with a mimeType override and
no fileName override, against a 4-byte file at `/docs/invoice.pdf`. -/
theorem c7_by_path_overrides_witness :
    processOne (fun q => (fileToBase64 collabId fsSmall q).1) collabId.detect
        ⟨none, some "application/pdf", some "/docs/invoice.pdf", none⟩ =
      .ok ⟨"invoice.pdf", "application/pdf", "QUJD"⟩ := by
  have h := c7_by_path_overrides collabId fsSmall
    ⟨none, some "application/pdf", some "/docs/invoice.pdf", none⟩
    "/docs/invoice.pdf" ⟨"QUJD", "application/octet-stream", "invoice.pdf"⟩
    rfl (by decide) rfl
  rw [h]
  rfl

/-! ### Claim C1: one result per attachment, in order, isolated failures -/

/-- C1: for every list of processed attachments and every behaviour of the
injected remote upload call, the upload loop yields exactly one result per
attachment, in input order; result `i` carries the input's fileName, has
status 'failed' with the thrown message exactly when call `i` threw, and
status 'success' exactly when it returned; every item is attempted (the
call trace lists all fileNames in order), so a failure at item `i` never
prevents the later items; and, at the `CreateBankTransactionTool` call
site, the tool run still returns the primary entity's success report (its
text carries the `ID:` field) with exactly these loop results. -/
theorem c1_upload_loop_isolation :
    (∀ (f : Nat → ProcessedAttachment → Except String Unit)
      (l : List ProcessedAttachment),
      (uploadLoop f l 0).1.length = l.length
      ∧ (uploadLoop f l 0).2 = l.map (fun a => a.fileName)
      ∧ ∀ i a, l[i]? = some a →
          ∃ r, (uploadLoop f l 0).1[i]? = some r
            ∧ r.fileName = a.fileName
            ∧ (∀ m, (r.status = .failed ∧ r.error = some m) ↔ f i a = .error m)
            ∧ (r.status = .success ↔ ∃ u, f i a = .ok u))
    ∧ (∀ (callResult : XeroClientResponse BankTransaction)
      (deepLinkFn : String → String → Except String String)
      (loader : String → Except String FileToBase64Result) (detect : String → String)
      (uploadFn : Nat → ProcessedAttachment → Except String Unit)
      (attachments : Option (List AttachmentInput))
      (bt : BankTransaction) (ba : BankAccount) (dl : Option String)
      (processed : List ProcessedAttachment),
      callResult.isError = false → callResult.result = some bt →
      bt.bankAccount = some ba → bankDeepLink deepLinkFn ba bt = .ok dl →
      attachmentsNonEmpty attachments = true → truthy bt.bankTransactionID = true →
      processAttachments loader detect attachments = .ok processed →
      ∃ okv t,
        runCreateBankTransactionTool callResult deepLinkFn loader detect uploadFn attachments
          = (.ok okv, (uploadLoop uploadFn processed 0).2)
        ∧ okv.attachmentResults = (uploadLoop uploadFn processed 0).1
        ∧ okv.response = mkText t
        ∧ containsSub t ("ID: " ++ jsStr bt.bankTransactionID) = true) := by
  constructor
  · intro f l
    refine ⟨uploadLoop_length f l 0, uploadLoop_trace f l 0, ?_⟩
    intro i a hia
    refine ⟨mkUploadResult a (f i a), by simpa using uploadLoop_getElem f l 0 i a hia, ?_, ?_, ?_⟩
    · cases hf : f i a <;> simp [mkUploadResult, hf]
    · intro m
      cases hf : f i a <;> simp [mkUploadResult, hf]
    · cases hf : f i a <;> simp [mkUploadResult, hf]
  · intro callResult deepLinkFn loader detect uploadFn attachments bt ba dl processed
      hErr hRes hBA hDL hNE hID hPA
    unfold runCreateBankTransactionTool
    simp only [hErr, Bool.false_eq_true, if_false, hRes, hBA, hDL, hNE, hID,
      Bool.and_self, if_true, hPA]
    refine ⟨_, _, rfl, rfl, rfl, ?_⟩
    apply joinLines_contains
    apply mem_jsFilterBoolean_of _ (idLine_ne_empty _)
    simp

/-- Witness for C1: a successful bank transaction with three by-content
attachments where exactly the second upload call throws. -/
theorem c1_upload_loop_isolation_witness :
    ((uploadLoop uploadFailSecond
        [⟨"a.pdf", "application/octet-stream", "QUJD"⟩,
         ⟨"b.pdf", "application/octet-stream", "REVG"⟩,
         ⟨"c.pdf", "application/octet-stream", "R0hJ"⟩] 0).1.length = 3
      ∧ ∃ r, (uploadLoop uploadFailSecond
          [⟨"a.pdf", "application/octet-stream", "QUJD"⟩,
           ⟨"b.pdf", "application/octet-stream", "REVG"⟩,
           ⟨"c.pdf", "application/octet-stream", "R0hJ"⟩] 0).1[1]? = some r
          ∧ r.fileName = "b.pdf"
          ∧ (r.status = .failed ∧ r.error = some "network down"))
    ∧ ∃ okv t,
        runCreateBankTransactionTool envOkFix okDeepLink loaderFail detectConst
            uploadFailSecond (some [attOk1, attOk2, attOk3])
          = (.ok okv, (uploadLoop uploadFailSecond
              [⟨"a.pdf", "application/octet-stream", "QUJD"⟩,
               ⟨"b.pdf", "application/octet-stream", "REVG"⟩,
               ⟨"c.pdf", "application/octet-stream", "R0hJ"⟩] 0).2)
          ∧ okv.attachmentResults = (uploadLoop uploadFailSecond
              [⟨"a.pdf", "application/octet-stream", "QUJD"⟩,
               ⟨"b.pdf", "application/octet-stream", "REVG"⟩,
               ⟨"c.pdf", "application/octet-stream", "R0hJ"⟩] 0).1
          ∧ okv.response = mkText t
          ∧ containsSub t ("ID: " ++ jsStr btFix.bankTransactionID) = true := by
  constructor
  · obtain ⟨hlen, htr, hget⟩ := c1_upload_loop_isolation.1 uploadFailSecond
      [⟨"a.pdf", "application/octet-stream", "QUJD"⟩,
       ⟨"b.pdf", "application/octet-stream", "REVG"⟩,
       ⟨"c.pdf", "application/octet-stream", "R0hJ"⟩]
    refine ⟨hlen, ?_⟩
    obtain ⟨r, hr, hfn, hiff, _⟩ := hget 1 ⟨"b.pdf", "application/octet-stream", "REVG"⟩ rfl
    exact ⟨r, hr, hfn, (hiff "network down").mpr rfl⟩
  · exact c1_upload_loop_isolation.2 envOkFix okDeepLink loaderFail detectConst
      uploadFailSecond (some [attOk1, attOk2, attOk3]) btFix ⟨some "ACC1"⟩
      (some ("https://go.xero.com/" ++ "ACC1" ++ "/" ++ "BT1"))
      [⟨"a.pdf", "application/octet-stream", "QUJD"⟩,
       ⟨"b.pdf", "application/octet-stream", "REVG"⟩,
       ⟨"c.pdf", "application/octet-stream", "R0hJ"⟩]
      rfl rfl rfl rfl rfl (by decide) rfl

/-! ### Claim C9: attachment handling only after success, id, and inputs -/

/-- C9: whenever the entity handler did not succeed, or the created
resource's identifier is not (truthily) non-empty, or the supplied
attachment list is absent/empty, the bank-transaction tool makes no upload
call (its upload trace is empty), produces no attachment results, and no
line of its response begins with "Attachments:".  Equivalently, an upload
call is only ever made when all three conditions hold. -/
theorem c9_attachments_guard
    (callResult : XeroClientResponse BankTransaction)
    (deepLinkFn : String → String → Except String String)
    (loader : String → Except String FileToBase64Result) (detect : String → String)
    (uploadFn : Nat → ProcessedAttachment → Except String Unit)
    (attachments : Option (List AttachmentInput))
    (hfail : callResult.isError = true
      ∨ (∀ bt, callResult.result = some bt → truthy bt.bankTransactionID = false)
      ∨ attachmentsNonEmpty attachments = false) :
    (runCreateBankTransactionTool callResult deepLinkFn loader detect uploadFn attachments).2 = []
    ∧ ∀ okv, (runCreateBankTransactionTool callResult deepLinkFn loader detect uploadFn
        attachments).1 = .ok okv →
      okv.attachmentResults = []
      ∧ ∀ s ∈ okv.lines, listPrefixOf "Attachments:".toList s.toList = false := by
  by_cases hErr : callResult.isError
  · unfold runCreateBankTransactionTool
    simp only [hErr, if_true]
    refine ⟨by trivial, ?_⟩
    intro okv hok
    simp only [Except.ok.injEq] at hok
    subst hok
    refine ⟨by trivial, ?_⟩
    intro s hs
    simp only [List.mem_singleton] at hs
    subst hs
    rfl
  · have hErr2 : callResult.isError = false := by
      revert hErr; cases callResult.isError <;> simp
    rcases hRes : callResult.result with _ | bt
    · unfold runCreateBankTransactionTool
      simp only [hErr2, Bool.false_eq_true, if_false, hRes]
      exact ⟨by trivial, by intro okv hok; cases hok⟩
    · have hguard : (attachmentsNonEmpty attachments && truthy bt.bankTransactionID) = false := by
        rcases hfail with h | h | h
        · rw [h] at hErr2; cases hErr2
        · simp [h bt hRes]
        · simp [h]
      rcases hBA : bt.bankAccount with _ | ba
      · unfold runCreateBankTransactionTool
        simp only [hErr2, Bool.false_eq_true, if_false, hRes, hBA]
        exact ⟨by trivial, by intro okv hok; cases hok⟩
      · rcases hDL : bankDeepLink deepLinkFn ba bt with e | dl
        · unfold runCreateBankTransactionTool
          simp only [hErr2, Bool.false_eq_true, if_false, hRes, hBA, hDL]
          exact ⟨by trivial, by intro okv hok; cases hok⟩
        · unfold runCreateBankTransactionTool
          simp only [hErr2, Bool.false_eq_true, if_false, hRes, hBA, hDL, hguard,
            List.length_nil, gt_iff_lt, lt_self_iff_false, if_false]
          refine ⟨by trivial, ?_⟩
          intro okv hok
          simp only [Except.ok.injEq] at hok
          subst hok
          refine ⟨by trivial, ?_⟩
          intro s hs
          have hs2 := List.mem_filter.mp hs
          obtain ⟨o, ho, hoid⟩ := List.mem_filterMap.mp hs2.1
          simp only [id_eq] at hoid
          subst hoid
          simp only [List.mem_cons, List.not_mem_nil, or_false] at ho
          rcases ho with h | h | h | h | h | h | h | h
          · cases h; rfl
          · cases h; rfl
          · cases h; rfl
          · cases h; rfl
          · cases h; rfl
          · cases h; rfl
          · cases h
          · rcases hdl2 : dl with _ | d <;> rw [hdl2] at h
            · cases h
            · have h2 : some s = if d ≠ "" then some ("Link to view: " ++ d) else none := h
              by_cases hd : d ≠ ""
              · rw [if_pos hd] at h2
                cases h2; rfl
              · rw [if_neg hd] at h2
                cases h2

/-- Witness for C9: a failed entity call with a supplied attachment makes no
upload call and reports no Attachments line. -/
theorem c9_attachments_guard_witness :
    (runCreateBankTransactionTool envErrFix okDeepLink loaderFail detectConst uploadOk
        (some [attOk1])).2 = []
    ∧ ∀ okv, (runCreateBankTransactionTool envErrFix okDeepLink loaderFail detectConst uploadOk
        (some [attOk1])).1 = .ok okv →
      okv.attachmentResults = []
      ∧ ∀ s ∈ okv.lines, listPrefixOf "Attachments:".toList s.toList = false :=
  c9_attachments_guard envErrFix okDeepLink loaderFail detectConst uploadOk
    (some [attOk1]) (Or.inl rfl)

/-! ### Claim C4: the uniform response shape (corrected) -/

/-- Counterexample to C4 as stated: the `CreateBankTransactionTool` handler
has no outer try/catch, so with a successful envelope and a deep-link
builder behaviour that throws, the handler itself raises instead of
returning the uniform text-content shape — the exception escapes to the
host.  (The claim quantifies over every behaviour of the deep-link builder,
thrown exceptions included.) -/
theorem c4_counterexample :
    (runCreateBankTransactionTool envOkFix throwingDeepLink loaderFail detectConst uploadOk
        none).1 = .error "deeplink boom" := rfl

/-- C4 amended: `CreateAccountTool`, whose handler body is wrapped in
try/catch, returns the uniform `{ content: [{type:"text", text}] }` shape
for every behaviour of its collaborators, throws included; the
`CreateBankTransactionTool` handler returns that shape on the error-envelope
path unconditionally, and on the success path provided the envelope carries
a result, its `bankAccount` is present, and the deep-link expression does
not throw — but (per the counterexample) a thrown deep-link error escapes. -/
theorem c4_uniform_shape_amended :
    (∀ (call : Except String (XeroClientResponse Account)) (accountId : Option String),
      ∃ t, runCreateAccountTool call accountId = mkText t)
    ∧ (∀ (callResult : XeroClientResponse BankTransaction)
      (deepLinkFn : String → String → Except String String)
      (loader : String → Except String FileToBase64Result) (detect : String → String)
      (uploadFn : Nat → ProcessedAttachment → Except String Unit)
      (attachments : Option (List AttachmentInput)),
      (callResult.isError = true →
        ∃ okv t, (runCreateBankTransactionTool callResult deepLinkFn loader detect uploadFn
          attachments).1 = .ok okv ∧ okv.response = mkText t)
      ∧ (∀ bt ba dl, callResult.isError = false → callResult.result = some bt →
        bt.bankAccount = some ba → bankDeepLink deepLinkFn ba bt = .ok dl →
        ∃ okv t, (runCreateBankTransactionTool callResult deepLinkFn loader detect uploadFn
          attachments).1 = .ok okv ∧ okv.response = mkText t)) := by
  constructor
  · intro call accountId
    unfold runCreateAccountTool createAccountToolBody
    rcases call with e | response
    · exact ⟨_, rfl⟩
    · by_cases hE : response.isError
      · simp only [hE, if_true]
        exact ⟨_, rfl⟩
      · simp only [hE, if_false]
        rcases hR : response.result with _ | account
        · exact ⟨_, rfl⟩
        · exact ⟨_, rfl⟩
  · intro callResult deepLinkFn loader detect uploadFn attachments
    constructor
    · intro hErr
      unfold runCreateBankTransactionTool
      simp only [hErr, if_true]
      exact ⟨_, _, rfl, rfl⟩
    · intro bt ba dl hErr hRes hBA hDL
      unfold runCreateBankTransactionTool
      simp only [hErr, Bool.false_eq_true, if_false, hRes, hBA, hDL]
      exact ⟨_, _, rfl, rfl⟩

/-- Witness for C4 amended: concrete runs of both tools produce the shape. -/
theorem c4_uniform_shape_amended_witness :
    (∃ t, runCreateAccountTool (.error "remote boom") none = mkText t)
    ∧ ∃ okv t, (runCreateBankTransactionTool envOkFix okDeepLink loaderFail detectConst uploadOk
        none).1 = .ok okv ∧ okv.response = mkText t := by
  constructor
  · exact c4_uniform_shape_amended.1 (.error "remote boom") none
  · exact (c4_uniform_shape_amended.2 envOkFix okDeepLink loaderFail detectConst uploadOk
      none).2 btFix ⟨some "ACC1"⟩
      (some ("https://go.xero.com/" ++ "ACC1" ++ "/" ++ "BT1")) rfl rfl rfl rfl

theorem lpo_self (l : List Char) : listPrefixOf l l = true := by
  simpa using lpo_append_self l []

/-- The needle occurs as the suffix of `pre ++ tail`. -/
theorem containsSub_suffix (pre tail : String) : containsSub (pre ++ tail) tail = true := by
  unfold containsSub
  rw [toList_append]
  exact lc_append_left _ (lc_of_lpo (lpo_self _))

/-- "not a file" occurs in "Path is not a file: " ++ anything. -/
theorem notAFile_contained (rest : List Char) :
    listContains "not a file".toList ("Path is not a file: ".toList ++ rest) = true := rfl

/-! ### Claim C8: failure messages (corrected) -/

/-- Counterexample to C8 as stated: at a concrete 11 MB file, `fileToBase64`
fails, but the raised 'File too large' message does not include the original
path `/data/big.pdf` — so not every failing call's message includes the
path. -/
theorem c8_counterexample :
    (fileToBase64 collabId fsBig "/data/big.pdf").1 =
      .error "File too large: 11MB (max: 10MB)"
    ∧ containsSub "File too large: 11MB (max: 10MB)" "/data/big.pdf" = false :=
  ⟨rfl, by decide⟩

/-- C8 amended: every failing `fileToBase64` call except the oversized-file
branch raises a message that includes the original path (the generic branch
also includes the underlying cause); `ENOENT` is translated to
'File not found: <path>' and `EACCES` to 'Permission denied: <path>' for
both the stat and the read stages, rather than leaked raw; the too-large
branch's message reports only the rounded size and the 10MB limit, omitting
the path. -/
theorem c8_error_messages_amended (c : Collab) (fs : FsModel) (p : String) :
    (∀ e, fs.stat (c.resolve p) = .error e →
      ((e.code = some "ENOENT" →
        (fileToBase64 c fs p).1 = .error ("File not found: " ++ p))
      ∧ (e.code = some "EACCES" →
        (fileToBase64 c fs p).1 = .error ("Permission denied: " ++ p))
      ∧ (e.code ≠ some "ENOENT" → e.code ≠ some "EACCES" →
        containsSub e.msg "too large" = false → containsSub e.msg "not a file" = false →
        (fileToBase64 c fs p).1 = .error ("Unable to read file: " ++ p ++ " - " ++ e.msg)
        ∧ containsSub ("Unable to read file: " ++ p ++ " - " ++ e.msg) p = true
        ∧ containsSub ("Unable to read file: " ++ p ++ " - " ++ e.msg) e.msg = true)))
    ∧ (∀ st, fs.stat (c.resolve p) = .ok st → st.isFile = false →
      (fileToBase64 c fs p).1 = .error ("Path is not a file: " ++ p)
      ∧ containsSub ("Path is not a file: " ++ p) p = true)
    ∧ (∀ st, fs.stat (c.resolve p) = .ok st → st.isFile = true →
      st.size > MAX_FILE_SIZE →
      (fileToBase64 c fs p).1 =
        .error ("File too large: " ++ toString (roundMB st.size) ++ "MB (max: 10MB)"))
    ∧ (∀ st e, fs.stat (c.resolve p) = .ok st → st.isFile = true →
      ¬(st.size > MAX_FILE_SIZE) → fs.readFile (c.resolve p) = .error e →
      ((e.code = some "ENOENT" →
        (fileToBase64 c fs p).1 = .error ("File not found: " ++ p))
      ∧ (e.code = some "EACCES" →
        (fileToBase64 c fs p).1 = .error ("Permission denied: " ++ p)))) := by
  refine ⟨?_, ?_, ?_, ?_⟩
  · intro e hstat
    refine ⟨?_, ?_, ?_⟩
    · intro hcode
      unfold fileToBase64
      simp only [hstat]
      simp [translateFtbErr, hcode]
    · intro hcode
      unfold fileToBase64
      simp only [hstat]
      simp [translateFtbErr, hcode]
    · intro hne1 hne2 hc1 hc2
      refine ⟨?_, ?_, ?_⟩
      · unfold fileToBase64
        simp only [hstat]
        simp [translateFtbErr, hne1, hne2, hc1, hc2]
      · have : "Unable to read file: " ++ p ++ " - " ++ e.msg =
            "Unable to read file: " ++ (p ++ (" - " ++ e.msg)) := by
          simp [String.append_assoc]
        rw [this]
        exact containsSub_sandwich _ _ _
      · exact containsSub_suffix _ _
  · intro st hstat hf
    constructor
    · have hc : containsSub ("Path is not a file: " ++ p) "not a file" = true := by
        unfold containsSub
        rw [toList_append]
        exact notAFile_contained _
      unfold fileToBase64
      simp only [hstat, hf, Bool.not_false, if_true]
      simp [translateFtbErr, hc]
    · exact containsSub_suffix _ _
  · intro st hstat hf hsz
    have hc : containsSub ("File too large: " ++ toString (roundMB st.size) ++ "MB (max: 10MB)")
        "too large" = true := by
      unfold containsSub
      rw [toList_append, toList_append, List.append_assoc]
      exact tooLarge_contained _
    unfold fileToBase64
    simp only [hstat, hf, Bool.not_true, Bool.false_eq_true, if_false, if_pos hsz]
    unfold translateFtbErr
    simp [hc]
  · intro st e hstat hf hsz hread
    constructor
    · intro hcode
      unfold fileToBase64
      simp only [hstat, hf, Bool.not_true, Bool.false_eq_true, if_false, if_neg hsz, hread]
      simp [translateFtbErr, hcode]
    · intro hcode
      unfold fileToBase64
      simp only [hstat, hf, Bool.not_true, Bool.false_eq_true, if_false, if_neg hsz, hread]
      simp [translateFtbErr, hcode]

/-- Witness for C8 amended: an ENOENT stat failure at a concrete path. -/
theorem c8_error_messages_amended_witness :
    (fileToBase64 collabId fsGone "/missing.txt").1 =
      .error ("File not found: " ++ "/missing.txt") :=
  ((c8_error_messages_amended collabId fsGone "/missing.txt").1
    ⟨some "ENOENT", "no such file or directory"⟩ rfl).1 rfl
